import Mathlib

/-!
# Verification of the deploy_flask_react bootstrap scripts

Shallow embedding of the orchestration logic of the repository
(`folder_bootloader.py`, `python_env_bootloader.py`, `vite_bootloader.py`)
and proofs about it.  Filesystem paths are modelled as absolute/relative
flags with segment lists, file contents as character lists or symbolic
constants, subprocess invocations as explicit command values whose exit
codes are inputs, and Python exceptions as `Except` values or `Option`
results at the sites where the source catches them.
-/

namespace DeployFlaskReact

/-! ## Path model

A `pathlib.Path` value is modelled by whether it is absolute plus its
list of name segments (the anchor `/` contributes no segment).  For an
absolute path, `parents` has exactly `segments.length` entries and
`parents[i]` drops the last `i+1` segments; the same count holds for
relative paths whose final `parents` entry is `.` (modelled as `[]`).
`Path.parent` drops one segment and saturates at the anchor (`/` or `.`),
exactly as in `pathlib`. -/

structure PyPath where
  absolute : Bool
  segments : List String
deriving DecidableEq, Repr

/-- `pathlib`'s `p.parent`: drop the last segment, saturating at the anchor. -/
def PyPath.parent (p : PyPath) : PyPath :=
  ⟨p.absolute, p.segments.dropLast⟩

/-- `pathlib`'s `p.parents[i]`: `none` models the `IndexError` raised when
`i` is at least the number of ancestors (`segments.length`). -/
def PyPath.parentsGet (p : PyPath) (i : Nat) : Option PyPath :=
  if i + 1 ≤ p.segments.length then
    some ⟨p.absolute, p.segments.take (p.segments.length - (i + 1))⟩
  else
    none

/-! ## Environment Resolver

`resolve_deployment_root` appears verbatim in `python_env_bootloader.py`
(lines 33-41) and `vite_bootloader.py` (lines 26-35): if `VELA_CORE_DIR`
is set, resolve it and return `p.parents[3]`, catching `IndexError` and
falling back to the current working directory; otherwise return the cwd.
The handle argument is the already-`resolve()`d (absolute) path; `cwd`
is the resolved current working directory. -/

def resolve_deployment_root (coreDir : Option PyPath) (cwd : PyPath) : PyPath :=
  match coreDir with
  | some p =>
    match p.parentsGet 3 with
    | some q => q
    | none => cwd
  | none => cwd

/-- `FolderBootloader.__init__` (folder_bootloader.py lines 171-182): when
`VELA_CORE_DIR` is set it computes `core_path.parent.parent.parent.parent`
on the raw (unresolved) handle, with no `IndexError` fallback; otherwise
it uses `Path.cwd()`. -/
def folderBootloaderRoot (coreDir : Option PyPath) (cwd : PyPath) : PyPath :=
  match coreDir with
  | some p => p.parent.parent.parent.parent
  | none => cwd

/-- Modelled from the spec's words (reference definition for the resolver,
used only to compare against the source embeddings): with a deployment
handle that has at least 4 ancestor segments, return exactly the 4th
ancestor; with fewer than 4 ancestors return the current working
directory without raising; with the variable unset return the cwd. -/
def resolverReference (coreDir : Option PyPath) (cwd : PyPath) : PyPath :=
  match coreDir with
  | some p =>
    if 4 ≤ p.segments.length then
      ⟨p.absolute, p.segments.take (p.segments.length - 4)⟩
    else
      cwd
  | none => cwd

/-! ## Dependency Installer: text model

File contents are lists of characters.  `splitLines` is Python's
`str.splitlines()` restricted to `'\n'` newlines: no trailing empty line
for newline-terminated text, and `splitLines [] = []`. -/

def splitLinesAux (cur : List Char) : List Char → List (List Char)
  | [] => if cur.isEmpty then [] else [cur.reverse]
  | c :: rest =>
    if c = '\n' then cur.reverse :: splitLinesAux [] rest
    else splitLinesAux (c :: cur) rest

def splitLines (cs : List Char) : List (List Char) :=
  splitLinesAux [] cs

/-- Python `str.isspace` characters that `strip()` removes (ASCII part). -/
def pySpace (c : Char) : Bool :=
  c = ' ' || c = '\t' || c = '\r' || c = '\n' || c = '\x0b' || c = '\x0c'

/-- Python `str.strip()`. -/
def pyStrip (cs : List Char) : List Char :=
  ((cs.dropWhile pySpace).reverse.dropWhile pySpace).reverse

/-- Python `s.split(pat)[0]`: the prefix of `s` before the first occurrence
of the (non-empty) pattern `pat`, or all of `s` when `pat` does not occur. -/
def takeBeforePat (pat : List Char) : List Char → List Char
  | [] => []
  | c :: cs =>
    if pat.isPrefixOf (c :: cs) then []
    else c :: takeBeforePat pat cs

/-- `MUST_HAVE` (python_env_bootloader.py lines 19-28), in dict order:
canonical lowercase name ↦ requirement-spec line. -/
def MUST_HAVE : List (String × String) :=
  [ ("flask", "Flask>=3.0,<4"),
    ("werkzeug", "Werkzeug>=3.0,<4"),
    ("jinja2", "Jinja2>=3.1,<4"),
    ("markupsafe", "MarkupSafe>=2.1.5,<3"),
    ("itsdangerous", "itsdangerous>=2.1,<3"),
    ("click", "click>=8.1,<9"),
    ("blinker", "blinker>=1.7,<2"),
    ("flask-cors", "flask-cors>=4.0,<5") ]

/-- The name a requirements line is matched by in `write_requirements`
(line 84): `ln.strip().split("==")[0].split(">=")[0].split("<")[0].lower()`. -/
def lineName (ln : List Char) : List Char :=
  (takeBeforePat "<".toList
    (takeBeforePat ">=".toList
      (takeBeforePat "==".toList (pyStrip ln)))).map Char.toLower

/-- The filter in `write_requirements` line 84: non-blank lines that do not
start with `#` after stripping. -/
def isReqLine (ln : List Char) : Bool :=
  !(pyStrip ln).isEmpty && !("#".toList.isPrefixOf (pyStrip ln))

/-- The set comprehension `lower` in `write_requirements` line 84, as the
list of matched names of the retained lines. -/
def existingNames (content : List Char) : List (List Char) :=
  (splitLines content).filterMap fun ln =>
    if isReqLine ln then some (lineName ln) else none

/-- `additions` in `write_requirements` line 85: the must-have specs whose
canonical name is not among the names found in the existing file. -/
def reqAdditions (content : List Char) : List (List Char) :=
  MUST_HAVE.filterMap fun nv =>
    if (existingNames content).contains nv.1.toList then none
    else some nv.2.toList

/-- Python `"\n".join(l)`. -/
def joinNL : List (List Char) → List Char
  | [] => []
  | [a] => a
  | a :: rest => a ++ '\n' :: joinNL rest

/-- `write_requirements` (python_env_bootloader.py lines 76-88).  The input
is the file's content when it exists (`some`) or `none` for the
missing-file branch, the output the content afterwards.  Appending opens
the file in mode `"a"` and writes `"\n" + "\n".join(additions) + "\n"`. -/
def write_requirements (existing : Option (List Char)) : List Char :=
  match existing with
  | none => joinNL (MUST_HAVE.map fun nv => nv.2.toList) ++ ['\n']
  | some content =>
    let adds := reqAdditions content
    if adds.isEmpty then content
    else content ++ '\n' :: (joinNL adds ++ ['\n'])

/-! ## Dependency Installer: subprocess model

Each install-related subprocess invocation of `install_requirements`
(python_env_bootloader.py lines 150-177) is a command value; the host
supplies each command's exit code.  `uvPipSyncReqFile` and
`pipInstallReqFile` are *install-from-file* commands; `pipInstallClickCors`
is the literal `pip install "click>=8.1,<9" "flask-cors>=4,<5"` run in the
`uv`-present branch. -/

inductive InstallCmd where
  | pipToolingUpgrade
  | pipInstallClickCors
  | pipInstallReqFile
  | uvPipSyncReqFile
deriving DecidableEq, Repr

/-- `install_requirements` (lines 150-177): returns the list of commands it
runs, in order, and the exit code it reports.  Step 1 upgrades pip
tooling and returns its code on failure.  With `uv` on the path the code
prints the `uv pip sync` message but actually runs
`pip install click flask-cors` and returns `rc` — the exit code of the
*tooling upgrade*, ignoring the ad-hoc install's code.  Without `uv` it
runs `pip install -r requirements.txt` and returns that code. -/
def install_requirements (uvOnPath : Bool) (exitCode : InstallCmd → Int) :
    List InstallCmd × Int :=
  let rc := exitCode .pipToolingUpgrade
  if rc ≠ 0 then ([.pipToolingUpgrade], rc)
  else if uvOnPath then
    ([.pipToolingUpgrade, .pipInstallClickCors], rc)
  else
    ([.pipToolingUpgrade, .pipInstallReqFile], exitCode .pipInstallReqFile)

/-! ## Dependency Installer: venv creation -/

inductive VenvCmd where
  | uvVenv
  | pyVenv
deriving DecidableEq, Repr

/-- Host facts relevant to `create_venv`.  `interpreterExists` records
whether the venv's interpreter executable is already present; the source
function receives only `venv_dir` and `env` and never queries this fact,
which is the point of claim C6. -/
structure VenvHost where
  uvOnPath : Bool
  interpreterExists : Bool
  isWindows : Bool
deriving DecidableEq, Repr

/-- The platform-specific interpreter path relative to the venv directory
(python_env_bootloader.py line 104). -/
def pythonExeRel (isWindows : Bool) : String :=
  if isWindows then "Scripts/python.exe" else "bin/python"

/-- `create_venv` (python_env_bootloader.py lines 91-105): after
`mkdir(parents=True, exist_ok=True)` it always runs exactly one creation
command — `uv venv` when `uv` is on the path, else `python -m venv` —
raising `SystemError` when that command fails, and returns the venv dir
with the platform-specific interpreter path. -/
def create_venv (h : VenvHost) (exitCode : VenvCmd → Int) :
    Except String (List VenvCmd × String) :=
  if h.uvOnPath then
    if exitCode .uvVenv ≠ 0 then .error "uv venv failed"
    else .ok ([.uvVenv], pythonExeRel h.isWindows)
  else
    if exitCode .pyVenv ≠ 0 then .error "venv creation failed"
    else .ok ([.pyVenv], pythonExeRel h.isWindows)

/-! ## Dependency Installer: verification step

`verify_stack` (python_env_bootloader.py lines 182-215) runs a probe
script importing the fixed module list below; the probe appends every
failing import (module, error text) to `missing` and the parent raises
`SystemError` when `missing` is non-empty. -/

/-- `mods` in the probe script (line 186). -/
def VERIFY_MODS : List String :=
  ["flask", "werkzeug", "jinja2", "markupsafe", "blinker", "click"]

/-- The canonical must-have names (keys of `MUST_HAVE`). -/
def mustHaveNames : List String :=
  MUST_HAVE.map Prod.fst

/-- The body of the probe loop (lines 188-193): `importErr m = some e`
models `import_module(m)` raising with message `e`, `none` a successful
import; a failure is appended to the report. -/
def probeStep (importErr : String → Option String)
    (acc : List (String × String)) (m : String) : List (String × String) :=
  match importErr m with
  | some e => acc ++ [(m, e)]
  | none => acc

/-- The probe loop over `mods`: every failure is appended to `missing`;
the loop never stops early. -/
def probeMissing (importErr : String → Option String) : List (String × String) :=
  VERIFY_MODS.foldl (probeStep importErr) []

/-- The tail of `verify_stack` (lines 207-212): a non-empty `missing` list
raises `SystemError`, an empty one returns normally. -/
def verifyStackOutcome (missing : List (String × String)) : Except String Unit :=
  if missing.isEmpty then .ok ()
  else .error "Flask stack failed to import: MISSING"

/-- What `main` (python_env_bootloader.py lines 538-558) does after the
install step, as a function of the probe's missing list: the exit code it
returns and the list of further install commands it issues.  The source
runs `verify_stack` and, when that raises, the `except Exception` handler
prints the error and returns 1; no install command of any kind is issued
after verification, on success or failure. -/
def mainAfterInstall (missing : List (String × String)) : Int × List InstallCmd :=
  match verifyStackOutcome missing with
  | .ok () => (0, [])
  | .error _ => (1, [])

/-! ## Scaffold Generator: filesystem model

A filesystem is an association list from relative path to file text.
The large generated script payloads are symbolic constants (their exact
bytes matter to no claim); what the source logic inspects about them —
whether the text contains the `VELA_START_SERVER_V2` marker — is modelled
by `hasV2Marker`, which is `true` exactly for the payloads whose second
line is `# VELA_START_SERVER_V2` (python_env_bootloader.py lines 230 and
414) and `false` for the folder/vite payloads, which do not contain the
marker string. -/

inductive FileText where
  /-- `start_server.py` payload of python_env_bootloader (lines 228-409). -/
  | startV2
  /-- `stop_servers.py` payload of python_env_bootloader (lines 412-444). -/
  | stopV2
  /-- `START_CONTENT` of folder_bootloader (lines 57-114). -/
  | unifiedStart
  /-- `STOP_CONTENT` of folder_bootloader (lines 116-155). -/
  | unifiedStop
  /-- `start_server.py` payload of vite_bootloader (lines 316-460). -/
  | combinedStart
  /-- `stop_servers.py` payload of vite_bootloader (lines 462-506). -/
  | combinedStop
  /-- Any other file text. -/
  | plain (s : String)
deriving DecidableEq, Repr

/-- Substring containment on character lists. -/
def containsSub (pat : List Char) : List Char → Bool
  | [] => pat.isEmpty
  | c :: cs => pat.isPrefixOf (c :: cs) || containsSub pat cs

def V2_MARKER : String := "VELA_START_SERVER_V2"

/-- Whether `"VELA_START_SERVER_V2" in text` holds for a file's text. -/
def hasV2Marker : FileText → Bool
  | .startV2 => true
  | .stopV2 => true
  | .unifiedStart => false
  | .unifiedStop => false
  | .combinedStart => false
  | .combinedStop => false
  | .plain s => containsSub V2_MARKER.toList s.toList

/-- A filesystem: the partial map from relative path to file text
(`none` = the path does not exist). -/
def FS := String → Option FileText

/-- `path.exists()` plus `read_text`: the file's text, if any. -/
def FS.read (fs : FS) (path : String) : Option FileText :=
  fs path

/-- `path.write_text(...)`: create the file or replace its text. -/
def FS.write (fs : FS) (path : String) (text : FileText) : FS :=
  fun q => if q = path then some text else fs q

/-- `safe_write` (folder_bootloader.py lines 38-49): write only if the
path does not already exist; returns the filesystem afterwards and
whether the file was created. -/
def safe_write (fs : FS) (path : String) (text : FileText) : FS × Bool :=
  if (fs.read path).isSome then (fs, false)
  else (fs.write path text, true)

/-- One iteration of the materialize loop: `safe_write` the pair and
record the path when it was created. -/
def materializeStep (acc : FS × List String) (pc : String × FileText) :
    FS × List String :=
  let r := safe_write acc.1 pc.1 pc.2
  (r.1, if r.2 then acc.2 ++ [pc.1] else acc.2)

/-- The Scaffold Generator's materialize operation: the
`_create_basic_files` / `write_unified_scripts` pattern of
folder_bootloader — fold `safe_write` over a (relative path, content)
file-map, returning the filesystem and the list of created paths. -/
def materialize (fs : FS) (fileMap : List (String × FileText)) :
    FS × List String :=
  fileMap.foldl materializeStep (fs, [])

/-- `needs_update` in `write_start_stop_scripts`
(python_env_bootloader.py lines 221-225): missing file or text without the
`VELA_START_SERVER_V2` marker. -/
def needs_update (fs : FS) (path : String) : Bool :=
  match fs.read path with
  | none => true
  | some t => !hasV2Marker t

/-- One guarded write of `write_start_stop_scripts`:
`if needs_update(p): p.write_text(payload)`. -/
def write_script_if_needed (fs : FS) (path : String) (payload : FileText) :
    FS :=
  if needs_update fs path then fs.write path payload else fs

/-- `write_start_stop_scripts` (python_env_bootloader.py lines 217-229 and
following): overwrite `start_server.py`, then `stop_servers.py`, with the
V2 payloads whenever `needs_update` holds — including when a file exists
with other content. -/
def write_start_stop_scripts (fs : FS) : FS :=
  write_script_if_needed
    (write_script_if_needed fs "start_server.py" .startV2)
    "stop_servers.py" .stopV2

/-- `write_combined_start_stop` (vite_bootloader.py lines 311-506):
unconditionally `write_text`s both scripts, replacing any existing
content. -/
def write_combined_start_stop (fs : FS) : FS :=
  (fs.write "start_server.py" .combinedStart).write "stop_servers.py" .combinedStop

/-- `write_unified_scripts` (folder_bootloader.py lines 52-162):
`safe_write` both scripts, returning the created names. -/
def write_unified_scripts (fs : FS) : FS × List String :=
  materialize fs
    [("start_server.py", .unifiedStart), ("stop_servers.py", .unifiedStop)]

/-! ## Process Supervisor: PID registry model

python_env_bootloader's generated scripts keep one JSON file `.pids.json`
mapping logical keys (`"flask_pid"`, `"vite_pid"`) to PIDs; the
folder/vite scripts keep one PID file per process.  A registry file is
absent, malformed (its text fails to parse), or well-formed; `json.loads`
and `int(text)` raising on malformed content is modelled by the `Except`
parsers below, and every source site wraps them in `try/except`. -/

inductive RegContent where
  | absent
  | malformed
  | entries (m : List (String × Nat))
deriving DecidableEq, Repr

inductive PidFileContent where
  | absent
  | malformed
  | pid (n : Nat)
deriving DecidableEq, Repr

/-- `int(p.read_text().strip())` on a per-process PID file. -/
def parsePidFile : PidFileContent → Except String Nat
  | .absent => .error "FileNotFoundError"
  | .malformed => .error "ValueError"
  | .pid n => .ok n

/-- `P[kind] = pid` on a JSON-object association list: replace in place or
append. -/
def setEntry (m : List (String × Nat)) (k : String) (v : Nat) :
    List (String × Nat) :=
  if (m.lookup k).isSome then
    m.map fun e => if e.1 = k then (k, v) else e
  else
    m ++ [(k, v)]

/-- `_read_pid` of the V2 start script (python_env_bootloader.py lines
239-246): `None` when the registry file is absent, fails to parse
(`except Exception: pass`), lacks the key, holds a falsy PID, or holds a
PID that fails the liveness probe `_pid_alive`. -/
def readPid (alive : Nat → Bool) (reg : RegContent) (kind : String) :
    Option Nat :=
  match reg with
  | .absent => none
  | .malformed => none
  | .entries m =>
    match m.lookup kind with
    | some pid => if pid ≠ 0 && alive pid then some pid else none
    | none => none

/-- `_write_pid` (lines 248-254): load the registry if parseable, else
start from `{}`, set the key, rewrite the whole file. -/
def writePid (reg : RegContent) (kind : String) (pid : Nat) : RegContent :=
  let m := match reg with
    | .absent => []
    | .malformed => []
    | .entries m => m
  .entries (setEntry m kind pid)

/-- The shared shape of `_start_flask` / `_start_vite` in the V2 start
script (lines 324-356 and 358-388): if `_read_pid` yields a live PID,
report it and spawn nothing; otherwise spawn (the fresh PID is the
spawned process's) and persist it immediately.  Result: (reported PID,
registry afterwards, whether a process was spawned). -/
def startProcV2 (alive : Nat → Bool) (reg : RegContent) (kind : String)
    (freshPid : Nat) : Nat × RegContent × Bool :=
  match readPid alive reg kind with
  | some existing => (existing, reg, false)
  | none => (freshPid, writePid reg kind freshPid, true)

/-- `start_flask` / `start_vite` of vite_bootloader's combined start script
(lines 355-403 and 405-447), per-process PID file variant: a parseable
live PID short-circuits; a parseable dead PID is unlinked and a new
process spawned; unparseable content (`old = None`) falls through to
spawning, and the file is rewritten with the new PID. -/
def startProcCombined (alive : Nat → Bool) (f : PidFileContent)
    (freshPid : Nat) : Nat × PidFileContent × Bool :=
  match parsePidFile f with
  | .ok old =>
    if old ≠ 0 && alive old then (old, f, false)
    else (freshPid, .pid freshPid, true)
  | .error _ => (freshPid, .pid freshPid, true)

/-! ## Process Supervisor: stop order and stop safety -/

/-- The V2 stop script (python_env_bootloader.py lines 431-443): load the
registry (malformed → `{}`), then `for key in ["vite_pid", "flask_pid"]`
kill each truthy entry in that order and pop it, finally rewriting the
file.  Result: (registry afterwards, kill events in order). -/
def stopServersV2 (reg : RegContent) : RegContent × List (String × Nat) :=
  let m := match reg with
    | .absent => []
    | .malformed => []
    | .entries m => m
  let step := fun (acc : List (String × Nat) × List (String × Nat)) (key : String) =>
    match acc.1.lookup key with
    | some pid =>
      if pid ≠ 0 then
        (acc.1.filter (fun e => e.1 ≠ key), acc.2 ++ [(key, pid)])
      else (acc.1, acc.2)
    | none => (acc.1, acc.2)
  let r := ["vite_pid", "flask_pid"].foldl step (m, [])
  (.entries r.1, r.2)

/-- `kill_pidfile` of folder_bootloader's generated stop script (lines
123-142): absent file → `False`; unparseable → unlink, `False`; otherwise
kill (exceptions swallowed), unlink in `finally`, `True`.  Result: (file
afterwards, whether a kill was attempted). -/
def kill_pidfile (f : PidFileContent) : PidFileContent × Bool :=
  match f with
  | .absent => (.absent, false)
  | .malformed => (.absent, false)
  | .pid _ => (.absent, true)

/-- `main` of folder_bootloader's stop script (lines 144-151): it calls
`kill_pidfile("flask.pid")` and then `kill_pidfile("vite.pid")` — backend
first.  Result: the kill events in order. -/
def folderStopEvents (flaskFile viteFile : PidFileContent) : List String :=
  (if (kill_pidfile flaskFile).2 then ["flask.pid"] else []) ++
  (if (kill_pidfile viteFile).2 then ["vite.pid"] else [])

/-- `stop_pid` of vite_bootloader's combined stop script (lines 472-492):
absent → message only; unparseable → unlink and return; otherwise
terminate and unlink.  Result: (file afterwards, kill attempted). -/
def stop_pid (f : PidFileContent) : PidFileContent × Bool :=
  match f with
  | .absent => (.absent, false)
  | .malformed => (.absent, false)
  | .pid _ => (.absent, true)

/-- `main` of vite_bootloader's combined stop script (lines 494-500):
`stop_pid` on `vite.pid` then on `flask.pid` — frontend first. -/
def combinedStopEvents (viteFile flaskFile : PidFileContent) : List String :=
  (if (stop_pid viteFile).2 then ["vite.pid"] else []) ++
  (if (stop_pid flaskFile).2 then ["flask.pid"] else [])

/-! ## Helper lemmas -/

theorem foldl_probeStep_filterMap (importErr : String → Option String)
    (l : List String) (acc : List (String × String)) :
    l.foldl (probeStep importErr) acc
      = acc ++ l.filterMap fun m => (importErr m).map fun e => (m, e) := by
  induction l generalizing acc with
  | nil => simp
  | cons x xs ih =>
    cases hx : importErr x <;> simp [List.foldl_cons, probeStep, hx, ih]

/-! ## Filesystem lemmas (for claim C2) -/

theorem write_read_self (fs : FS) (p : String) (t : FileText) :
    (fs.write p t).read p = some t := by
  simp [FS.write, FS.read]

theorem write_read_other (fs : FS) (p q : String) (t : FileText)
    (hq : q ≠ p) : (fs.write p t).read q = fs.read q := by
  simp [FS.write, FS.read, hq]

theorem safe_write_preserves (fs : FS) (p : String) (t : FileText)
    (q : String) (h : (fs.read q).isSome) :
    (safe_write fs p t).1.read q = fs.read q := by
  unfold safe_write
  by_cases hp : (fs.read p).isSome
  · simp [hp]
  · simp only [hp, if_false, Bool.false_eq_true]
    have hqp : q ≠ p := by
      intro he
      subst he
      exact hp h
    exact write_read_other fs p q t hqp

theorem safe_write_target_exists (fs : FS) (p : String) (t : FileText) :
    ((safe_write fs p t).1.read p).isSome := by
  unfold safe_write
  by_cases hp : (fs.read p).isSome
  · simp [hp]
  · simp only [hp, if_false, Bool.false_eq_true]
    rw [write_read_self]
    rfl

theorem foldl_materialize_preserves (fileMap : List (String × FileText)) :
    ∀ (acc : FS × List String) (q : String), (acc.1.read q).isSome →
      ((fileMap.foldl materializeStep acc).1.read q).isSome := by
  induction fileMap with
  | nil => exact fun acc q h => h
  | cons pc rest ih =>
    intro acc q h
    rw [List.foldl_cons]
    apply ih
    show ((safe_write acc.1 pc.1 pc.2).1.read q).isSome
    rw [safe_write_preserves acc.1 pc.1 pc.2 q h]
    exact h

theorem foldl_materialize_mem_exists (fileMap : List (String × FileText)) :
    ∀ (acc : FS × List String), ∀ pc ∈ fileMap,
      ((fileMap.foldl materializeStep acc).1.read pc.1).isSome := by
  induction fileMap with
  | nil =>
    intro acc pc hpc
    simp at hpc
  | cons pc0 rest ih =>
    intro acc pc hpc
    rw [List.foldl_cons]
    rcases List.mem_cons.mp hpc with he | hm
    · subst he
      apply foldl_materialize_preserves
      show ((safe_write acc.1 pc.1 pc.2).1.read pc.1).isSome
      exact safe_write_target_exists acc.1 pc.1 pc.2
    · exact ih _ pc hm

theorem foldl_materialize_noop (fileMap : List (String × FileText)) :
    ∀ acc : FS × List String, (∀ pc ∈ fileMap, (acc.1.read pc.1).isSome) →
      fileMap.foldl materializeStep acc = acc := by
  induction fileMap with
  | nil => intro acc _; rfl
  | cons pc rest ih =>
    intro acc h
    rw [List.foldl_cons]
    have hpc := h pc (List.mem_cons_self _ _)
    have hstep : materializeStep acc pc = acc := by
      unfold materializeStep safe_write
      simp [hpc]
    rw [hstep]
    exact ih acc fun pc' h' => h pc' (List.mem_cons_of_mem _ h')

theorem write_script_if_needed_read_other (fs : FS) (path : String)
    (payload : FileText) (q : String) (hq : q ≠ path) :
    (write_script_if_needed fs path payload).read q = fs.read q := by
  unfold write_script_if_needed
  by_cases h : needs_update fs path
  · rw [if_pos h, write_read_other _ _ _ _ hq]
  · rw [if_neg h]

theorem needs_update_congr (fs g : FS) (path : String)
    (h : fs.read path = g.read path) :
    needs_update fs path = needs_update g path := by
  unfold needs_update
  rw [h]

theorem write_script_if_needed_no_update (fs : FS) (path : String)
    (payload : FileText) (hm : hasV2Marker payload = true) :
    needs_update (write_script_if_needed fs path payload) path = false := by
  unfold write_script_if_needed
  by_cases h : needs_update fs path
  · rw [if_pos h]
    unfold needs_update
    rw [write_read_self]
    simp [hm]
  · rw [if_neg h]
    simpa using h

theorem needs_update_after_write_scripts (fs : FS) :
    needs_update (write_start_stop_scripts fs) "start_server.py" = false ∧
    needs_update (write_start_stop_scripts fs) "stop_servers.py" = false := by
  have hne : "start_server.py" ≠ "stop_servers.py" := by decide
  constructor
  · have hread : (write_start_stop_scripts fs).read "start_server.py"
        = (write_script_if_needed fs "start_server.py" .startV2).read
            "start_server.py" :=
      write_script_if_needed_read_other _ _ _ _ hne
    rw [needs_update_congr _ _ _ hread]
    exact write_script_if_needed_no_update fs "start_server.py" .startV2 rfl
  · exact write_script_if_needed_no_update _ "stop_servers.py" .stopV2 rfl

theorem write_scripts_noop_of_no_update (g : FS)
    (h1 : needs_update g "start_server.py" = false)
    (h2 : needs_update g "stop_servers.py" = false) :
    write_start_stop_scripts g = g := by
  have e1 : write_script_if_needed g "start_server.py" .startV2 = g := by
    unfold write_script_if_needed
    rw [if_neg (by simp [h1])]
  unfold write_start_stop_scripts
  rw [e1]
  unfold write_script_if_needed
  rw [if_neg (by simp [h2])]

/-! ## Claim C2 -/

/-- C2 counterexample: a pre-existing `start_server.py` whose content is
not the V2 payload (no marker) is overwritten by
`write_start_stop_scripts`, and `write_combined_start_stop` replaces it
unconditionally — so a scaffold-writing operation does overwrite an
existing file, contrary to the claim's never-overwrite clause. -/
theorem scaffold_overwrites_existing_file :
    (write_start_stop_scripts
      (fun q => if q = "start_server.py" then some (.plain "legacy") else none)).read
      "start_server.py" = some .startV2 ∧
    FileText.plain "legacy" ≠ .startV2 ∧
    (write_combined_start_stop
      (fun q => if q = "start_server.py" then some (.plain "legacy") else none)).read
      "start_server.py" = some .combinedStart := by
  refine ⟨by decide, by decide, by decide⟩

/-- C2 (amended): a second materialize run with the same file-map creates
zero files and changes nothing, and `safe_write` never alters an existing
file; `write_start_stop_scripts` and `write_combined_start_stop` are also
idempotent on a second call (the repeated call changes no file content) —
but, per the counterexample, those two script writers may overwrite
pre-existing files on the first call, so never-overwrite holds only for
the `safe_write`-based materialize. -/
theorem materialize_second_run_is_noop :
    (∀ (fs : FS) (fileMap : List (String × FileText)),
      materialize (materialize fs fileMap).1 fileMap
        = ((materialize fs fileMap).1, [])) ∧
    (∀ (fs : FS) (p : String) (t : FileText) (q : String),
      (fs.read q).isSome → (safe_write fs p t).1.read q = fs.read q) ∧
    (∀ fs : FS, write_start_stop_scripts (write_start_stop_scripts fs)
      = write_start_stop_scripts fs) ∧
    (∀ (fs : FS) (q : String),
      (write_combined_start_stop (write_combined_start_stop fs)).read q
        = (write_combined_start_stop fs).read q) := by
  refine ⟨?_, safe_write_preserves, ?_, ?_⟩
  · intro fs fileMap
    exact foldl_materialize_noop fileMap ((materialize fs fileMap).1, [])
      fun pc hpc => foldl_materialize_mem_exists fileMap (fs, []) pc hpc
  · intro fs
    exact write_scripts_noop_of_no_update _
      (needs_update_after_write_scripts fs).1
      (needs_update_after_write_scripts fs).2
  · intro fs q
    by_cases hq2 : q = "stop_servers.py"
    · subst hq2
      have L : ∀ g : FS, (write_combined_start_stop g).read "stop_servers.py"
          = some .combinedStop := by
        intro g
        unfold write_combined_start_stop
        rw [write_read_self]
      rw [L, L]
    · by_cases hq1 : q = "start_server.py"
      · subst hq1
        have L : ∀ g : FS, (write_combined_start_stop g).read "start_server.py"
            = some .combinedStart := by
          intro g
          unfold write_combined_start_stop
          rw [write_read_other _ _ _ _ hq2, write_read_self]
        rw [L, L]
      · have L : ∀ g : FS, (write_combined_start_stop g).read q = g.read q := by
          intro g
          unfold write_combined_start_stop
          rw [write_read_other _ _ _ _ hq2, write_read_other _ _ _ _ hq1]
        rw [L, L]

/-- C2 witness: the amended theorem applied to a concrete map over the
empty filesystem, and `safe_write` preservation at a concrete existing
file. -/
theorem materialize_second_run_witness :
    materialize (materialize (fun _ => none) [("a", .plain "x")]).1
        [("a", .plain "x")]
      = ((materialize (fun _ => none : FS) [("a", .plain "x")]).1, []) ∧
    (safe_write (fun q => if q = "q" then some (.plain "y") else none)
        "p" (.plain "z")).1.read "q"
      = FS.read (fun q => if q = "q" then some (.plain "y") else none) "q" :=
  ⟨materialize_second_run_is_noop.1 (fun _ => none) [("a", .plain "x")],
   materialize_second_run_is_noop.2.1
     (fun q => if q = "q" then some (.plain "y") else none) "p" (.plain "z") "q"
     (by decide)⟩

/-! ## Claim C1 -/

/-- C1: with `uv` present on the host and the ad-hoc
`pip install click flask-cors` command failing (exit code 1),
`install_requirements` runs no install-from-file command at all — neither
the fast external tool's nor the interpreter's package-installer's — and
still reports exit code 0 (the tooling-upgrade code), so no fallback ever
happens and failure is not reported.  This contradicts the module's own
docstring ("installs requirements (uv if present → pip fallback)") and
its own log line announcing `uv pip sync`. -/
theorem install_requirements_skips_file_install_with_uv :
    install_requirements true (fun c => if c = .pipInstallClickCors then 1 else 0)
      = ([.pipToolingUpgrade, .pipInstallClickCors], 0) ∧
    InstallCmd.uvPipSyncReqFile ∉
      (install_requirements true
        (fun c => if c = .pipInstallClickCors then 1 else 0)).1 ∧
    InstallCmd.pipInstallReqFile ∉
      (install_requirements true
        (fun c => if c = .pipInstallClickCors then 1 else 0)).1 := by
  refine ⟨rfl, by decide, by decide⟩

/-! ## Claim C3 -/

/-- C3 counterexample: for the deployment handle `/a` (one segment, hence
fewer than 4 ancestors) and current directory `/w`, the reference
resolver returns the cwd `/w`, but `FolderBootloader.__init__` — one of
the claim's Environment Resolver implementations — returns the saturated
fourth parent `/`, not the cwd. -/
theorem folderBootloaderRoot_shallow_handle_ne_reference :
    folderBootloaderRoot (some ⟨true, ["a"]⟩) ⟨true, ["w"]⟩ = ⟨true, []⟩ ∧
    resolverReference (some ⟨true, ["a"]⟩) ⟨true, ["w"]⟩ = ⟨true, ["w"]⟩ ∧
    (⟨true, []⟩ : PyPath) ≠ ⟨true, ["w"]⟩ := by
  refine ⟨rfl, rfl, by decide⟩

/-- C3 (amended): the two `resolve_deployment_root` implementations
(python_env_bootloader, vite_bootloader) equal the reference resolver on
every input; the `FolderBootloader.__init__` variant instead takes four
saturating `.parent` steps with no cwd fallback, so for a handle with
fewer than 4 ancestor segments it yields the handle's anchor (filesystem
root or `.`), independent of the current working directory. -/
theorem resolver_matches_reference_except_folder_variant :
    (∀ coreDir cwd,
      resolve_deployment_root coreDir cwd = resolverReference coreDir cwd) ∧
    (∀ p cwd, p.segments.length < 4 →
      folderBootloaderRoot (some p) cwd = ⟨p.absolute, []⟩) := by
  constructor
  · intro coreDir cwd
    cases coreDir with
    | none => rfl
    | some p =>
      simp only [resolve_deployment_root, resolverReference, PyPath.parentsGet]
      by_cases h : 3 + 1 ≤ p.segments.length
      · rw [if_pos h, if_pos (by omega)]
      · rw [if_neg h, if_neg (by omega)]
  · intro p cwd h
    show (⟨p.absolute, p.segments.dropLast.dropLast.dropLast.dropLast⟩ : PyPath) = _
    have hlen : p.segments.dropLast.dropLast.dropLast.dropLast.length = 0 := by
      simp only [List.length_dropLast]
      omega
    rw [List.eq_nil_of_length_eq_zero hlen]

/-- C3 witness: the amended resolver theorem applied at a handle with 5
segments (first part) and at the shallow handle `/a` (second part). -/
theorem resolver_matches_reference_witness :
    resolve_deployment_root (some ⟨true, ["a", "b", "c", "d", "e"]⟩) ⟨true, ["w"]⟩
      = resolverReference (some ⟨true, ["a", "b", "c", "d", "e"]⟩) ⟨true, ["w"]⟩ ∧
    folderBootloaderRoot (some ⟨true, ["x"]⟩) ⟨true, ["w"]⟩ = ⟨true, []⟩ :=
  ⟨resolver_matches_reference_except_folder_variant.1 _ _,
   resolver_matches_reference_except_folder_variant.2 ⟨true, ["x"]⟩ ⟨true, ["w"]⟩
     (by decide)⟩

/-! ## Claim C5 -/

/-- C5 counterexample: `itsdangerous` is in the must-have set but the
verification probe's module list does not contain it, so the
post-install verification does not attempt to import every must-have
package. -/
theorem verify_probe_misses_itsdangerous :
    "itsdangerous" ∈ mustHaveNames ∧ "itsdangerous" ∉ VERIFY_MODS := by
  decide

/-- C5 (amended): the verification probe imports the fixed six modules
flask, werkzeug, jinja2, markupsafe, blinker, click — a proper subset of
the must-have set omitting itsdangerous and flask-cors — and its loop
collects every import failure (not only the first) into the single
`missing` report. -/
theorem verify_probe_subset_collects_all_failures :
    (∀ m ∈ VERIFY_MODS, m ∈ mustHaveNames) ∧
    ("itsdangerous" ∈ mustHaveNames ∧ "itsdangerous" ∉ VERIFY_MODS) ∧
    ("flask-cors" ∈ mustHaveNames ∧ "flask-cors" ∉ VERIFY_MODS) ∧
    (∀ importErr, probeMissing importErr
      = VERIFY_MODS.filterMap fun m => (importErr m).map fun e => (m, e)) := by
  refine ⟨by decide, by decide, by decide, ?_⟩
  intro importErr
  rw [probeMissing, foldl_probeStep_filterMap, List.nil_append]

/-- C5 witness: the amended probe theorem applied to the concrete module
`flask` and to a concrete import-failure function under which exactly
`markupsafe` fails. -/
theorem verify_probe_subset_witness :
    "flask" ∈ mustHaveNames ∧
    probeMissing (fun m => if m = "markupsafe" then some "boom" else none)
      = [("markupsafe", "boom")] := by
  refine ⟨verify_probe_subset_collects_all_failures.1 "flask" (by decide), ?_⟩
  rw [verify_probe_subset_collects_all_failures.2.2.2
    (fun m => if m = "markupsafe" then some "boom" else none)]
  decide

/-! ## Claim C6 -/

/-- C6 counterexample: on a host where the venv interpreter already exists
(`interpreterExists = true`, no `uv`), `create_venv` still issues the
`python -m venv` creation command — the command list is non-empty, so
environment creation is not skipped. -/
theorem create_venv_runs_despite_existing_interpreter :
    create_venv ⟨false, true, false⟩ (fun _ => 0)
      = .ok ([.pyVenv], "bin/python") ∧
    ([VenvCmd.pyVenv] : List VenvCmd) ≠ [] := by
  refine ⟨rfl, by decide⟩

/-- C6 (amended): `create_venv` never inspects whether the interpreter
already exists; on every host state (in particular with
`interpreterExists = true`) whose creation command succeeds, it runs
exactly one creation command — `uv venv` when `uv` is on the path, else
`python -m venv` — and returns the platform-specific relative interpreter
path. -/
theorem create_venv_always_invokes_creation (h : VenvHost)
    (exitCode : VenvCmd → Int) (huv : exitCode .uvVenv = 0)
    (hpy : exitCode .pyVenv = 0) :
    create_venv h exitCode
      = .ok ([if h.uvOnPath then VenvCmd.uvVenv else VenvCmd.pyVenv],
          pythonExeRel h.isWindows) := by
  unfold create_venv
  by_cases hu : h.uvOnPath <;> simp [hu, huv, hpy]

/-- C6 witness: the amended theorem applied to a Windows host with `uv`
present and an already-existing interpreter. -/
theorem create_venv_always_invokes_creation_witness :
    create_venv ⟨true, true, true⟩ (fun _ => 0)
      = .ok ([VenvCmd.uvVenv], "Scripts/python.exe") := by
  have h := create_venv_always_invokes_creation ⟨true, true, true⟩
    (fun _ => 0) rfl rfl
  simpa using h

/-! ## Claims C7 and C8 -/

theorem lookup_filter_ne_key (k k' : String) (h : k ≠ k')
    (m : List (String × Nat)) :
    (m.filter fun e => e.1 ≠ k').lookup k = m.lookup k := by
  induction m with
  | nil => rfl
  | cons e rest ih =>
    obtain ⟨a, b⟩ := e
    simp only [ne_eq, decide_not] at ih ⊢
    by_cases ha : a = k'
    · subst ha
      have hk : (k == a) = false := by
        simp only [beq_eq_false_iff_ne]
        exact h
      simp [List.filter_cons, List.lookup, hk, ih]
    · cases hka : (k == a) <;>
        simp [List.filter_cons, ha, List.lookup, hka, ih]

/-- C7 counterexample: with both PID files present, the stop script
generated by folder_bootloader signals the backend (`flask.pid`) first
and the frontend (`vite.pid`) second — not the claimed reverse start
order. -/
theorem folder_stop_signals_backend_first :
    folderStopEvents (.pid 10) (.pid 20) = ["flask.pid", "vite.pid"] ∧
    folderStopEvents (.pid 10) (.pid 20) ≠ ["vite.pid", "flask.pid"] := by
  refine ⟨rfl, by decide⟩

/-- C7 (amended): the stop scripts generated by python_env_bootloader and
vite_bootloader signal the frontend strictly before the backend whenever
both processes are tracked; the stop script generated by
folder_bootloader signals the backend first. -/
theorem stop_order_frontend_first_except_folder_variant :
    (∀ (m : List (String × Nat)) (pv pf : Nat),
      m.lookup "vite_pid" = some pv → m.lookup "flask_pid" = some pf →
      pv ≠ 0 → pf ≠ 0 →
      (stopServersV2 (.entries m)).2 = [("vite_pid", pv), ("flask_pid", pf)]) ∧
    (∀ a b : Nat, combinedStopEvents (.pid a) (.pid b) = ["vite.pid", "flask.pid"]) ∧
    (∀ a b : Nat, folderStopEvents (.pid a) (.pid b) = ["flask.pid", "vite.pid"]) := by
  refine ⟨?_, fun a b => rfl, fun a b => rfl⟩
  intro m pv pf hv hf hpv hpf
  have hlf : (m.filter fun e => e.1 ≠ "vite_pid").lookup "flask_pid"
      = m.lookup "flask_pid" :=
    lookup_filter_ne_key "flask_pid" "vite_pid" (by decide) m
  simp only [ne_eq, decide_not] at hlf
  simp [stopServersV2, hv, hf, hpv, hpf, hlf]

/-- C7 witness: the amended stop-order theorem applied to a registry
tracking vite at PID 5 and flask at PID 7, and to concrete PID files. -/
theorem stop_order_frontend_first_witness :
    (stopServersV2 (.entries [("vite_pid", 5), ("flask_pid", 7)])).2
      = [("vite_pid", 5), ("flask_pid", 7)] ∧
    combinedStopEvents (.pid 5) (.pid 7) = ["vite.pid", "flask.pid"] := by
  refine ⟨stop_order_frontend_first_except_folder_variant.1
    [("vite_pid", 5), ("flask_pid", 7)] 5 7 rfl rfl (by decide) (by decide),
    stop_order_frontend_first_except_folder_variant.2.1 5 7⟩

/-- C8: start is idempotent on live PIDs, in both generated start-script
variants: when the registry (V2 JSON variant) holds a non-zero PID for
the logical name and the liveness probe passes, the V2 start logic
reports that PID, spawns nothing and leaves the registry unchanged; the
combined per-file variant behaves the same on a parseable live PID
file. -/
theorem start_skips_spawn_when_registered_pid_live (alive : Nat → Bool)
    (m : List (String × Nat)) (kind : String) (pid freshPid : Nat)
    (hlook : m.lookup kind = some pid) (hpos : pid ≠ 0)
    (halive : alive pid = true) :
    startProcV2 alive (.entries m) kind freshPid = (pid, .entries m, false) ∧
    ∀ (q fresh : Nat), q ≠ 0 → alive q = true →
      startProcCombined alive (.pid q) fresh = (q, .pid q, false) := by
  constructor
  · unfold startProcV2 readPid
    simp [hlook, hpos, halive]
  · intro q fresh hq hal
    unfold startProcCombined parsePidFile
    simp [hq, hal]

/-- C8 witness: the idempotence theorem applied to a registry holding
flask at the live PID 7 (liveness probe `n == 7`) and to a live PID
file. -/
theorem start_skips_spawn_witness :
    startProcV2 (fun n => n == 7) (.entries [("flask_pid", 7)]) "flask_pid" 99
      = (7, .entries [("flask_pid", 7)], false) ∧
    startProcCombined (fun n => n == 7) (.pid 7) 99 = (7, .pid 7, false) := by
  have h := start_skips_spawn_when_registered_pid_live (fun n => n == 7)
    [("flask_pid", 7)] "flask_pid" 7 99 rfl (by decide) (by decide)
  exact ⟨h.1, h.2 7 99 (by decide) (by decide)⟩

/-! ## Claim C9 -/

/-- C9 counterexample: when the verification failure set is exactly the
single low-level dependency `markupsafe` (the known wheel-availability
case), the pipeline exits with code 1 and issues zero further install
commands — no remediation tier is ever attempted, contradicting the
claimed escalating retry. -/
theorem no_remediation_for_singleton_markupsafe_failure :
    mainAfterInstall [("markupsafe", "No matching distribution found")]
      = (1, []) ∧ (1 : Int) ≠ 0 := by
  refine ⟨rfl, by decide⟩

/-- C9 (amended): every non-empty verification failure set — including the
singleton known-dependency case — is a HARD failure: `verify_stack`
raises, `main` returns exit code 1, and no remediation install command of
any tier is issued. -/
theorem every_verify_failure_is_hard (missing : List (String × String))
    (h : missing ≠ []) :
    mainAfterInstall missing = (1, []) := by
  unfold mainAfterInstall verifyStackOutcome
  cases missing with
  | nil => exact absurd rfl h
  | cons a l => rfl

/-- C9 witness: the amended theorem applied to the singleton
`markupsafe` failure. -/
theorem every_verify_failure_is_hard_witness :
    mainAfterInstall [("markupsafe", "no wheel")] = (1, []) :=
  every_verify_failure_is_hard [("markupsafe", "no wheel")] (by decide)

/-! ## Claim C10 -/

/-- C10: a malformed PID registry (or per-name PID file) never makes
start or stop raise: the V2 start logic treats the unparseable registry
as absent and spawns, recording the fresh PID in a rewritten well-formed
registry; the combined start logic likewise spawns and overwrites the
unparseable PID file; the V2 stop rewrites the unparseable registry as
the empty mapping; the folder and combined stop helpers delete the
unparseable PID file and report no kill — all four operations are total
functions of the malformed input (the parse exception is caught at every
site in the source). -/
theorem malformed_registry_never_raises :
    (∀ (alive : Nat → Bool) (kind : String) (freshPid : Nat),
      startProcV2 alive .malformed kind freshPid
        = (freshPid, .entries [(kind, freshPid)], true)) ∧
    (∀ (alive : Nat → Bool) (freshPid : Nat),
      startProcCombined alive .malformed freshPid
        = (freshPid, .pid freshPid, true)) ∧
    stopServersV2 .malformed = (.entries [], []) ∧
    kill_pidfile .malformed = (.absent, false) ∧
    stop_pid .malformed = (.absent, false) := by
  refine ⟨fun alive kind freshPid => rfl, fun alive freshPid => rfl, rfl, rfl, rfl⟩

/-! ## Line-splitting lemmas (for claim C4) -/

theorem splitLinesAux_nil (cur : List Char) :
    splitLinesAux cur [] = if cur.isEmpty then [] else [cur.reverse] := rfl

theorem splitLinesAux_cons_newline (cur rest : List Char) :
    splitLinesAux cur ('\n' :: rest)
      = cur.reverse :: splitLinesAux [] rest := rfl

theorem splitLinesAux_cons_other (cur : List Char) (c : Char)
    (rest : List Char) (hc : c ≠ '\n') :
    splitLinesAux cur (c :: rest) = splitLinesAux (c :: cur) rest := by
  rw [splitLinesAux, if_neg hc]

theorem splitLinesAux_append_newline (s : List Char) :
    ∀ cur t : List Char,
      splitLinesAux cur (s ++ '\n' :: t)
        = splitLinesAux cur (s ++ ['\n']) ++ splitLines t := by
  induction s with
  | nil => intro cur t; rfl
  | cons c s ih =>
    intro cur t
    by_cases hc : c = '\n'
    · subst hc
      rw [List.cons_append, List.cons_append, splitLinesAux_cons_newline,
        splitLinesAux_cons_newline, ih [] t, List.cons_append]
    · rw [List.cons_append, List.cons_append,
        splitLinesAux_cons_other _ _ _ hc, splitLinesAux_cons_other _ _ _ hc]
      exact ih (c :: cur) t

theorem splitLinesAux_newline_suffix (s : List Char) :
    ∀ cur : List Char, ∃ u,
      splitLinesAux cur (s ++ ['\n']) = splitLinesAux cur s ++ u := by
  induction s with
  | nil =>
    intro cur
    by_cases hcur : cur.isEmpty
    · exact ⟨[cur.reverse],
        by simp [splitLinesAux_cons_newline, splitLinesAux_nil, hcur]⟩
    · exact ⟨[],
        by simp [splitLinesAux_cons_newline, splitLinesAux_nil, hcur]⟩
  | cons c s ih =>
    intro cur
    by_cases hc : c = '\n'
    · subst hc
      obtain ⟨u, hu⟩ := ih []
      refine ⟨u, ?_⟩
      rw [List.cons_append, splitLinesAux_cons_newline,
        splitLinesAux_cons_newline, hu, List.cons_append]
    · obtain ⟨u, hu⟩ := ih (c :: cur)
      refine ⟨u, ?_⟩
      rw [List.cons_append, splitLinesAux_cons_other _ _ _ hc,
        splitLinesAux_cons_other _ _ _ hc, hu]

theorem splitLines_append_newline (s t : List Char) :
    splitLines (s ++ '\n' :: t)
      = splitLines (s ++ ['\n']) ++ splitLines t :=
  splitLinesAux_append_newline s [] t

theorem splitLines_newline_suffix (s : List Char) :
    ∃ u, splitLines (s ++ ['\n']) = splitLines s ++ u :=
  splitLinesAux_newline_suffix s []

theorem splitLinesAux_no_newline (t : List Char) (s : List Char)
    (hs : ∀ c ∈ s, c ≠ '\n') :
    ∀ cur, splitLinesAux cur (s ++ '\n' :: t)
      = (cur.reverse ++ s) :: splitLinesAux [] t := by
  induction s with
  | nil =>
    intro cur
    rw [List.nil_append, splitLinesAux_cons_newline]
    simp
  | cons c s ih =>
    intro cur
    have hc : c ≠ '\n' := hs c (List.mem_cons_self _ _)
    rw [List.cons_append, splitLinesAux_cons_other _ _ _ hc,
      ih (fun c' hc' => hs c' (List.mem_cons_of_mem _ hc')) (c :: cur)]
    simp [List.reverse_cons, List.append_assoc]

theorem splitLines_joinNL (adds : List (List Char)) (hne : adds ≠ [])
    (hnl : ∀ a ∈ adds, ∀ c ∈ a, c ≠ '\n') :
    splitLines (joinNL adds ++ ['\n']) = adds := by
  induction adds with
  | nil => exact absurd rfl hne
  | cons a rest ih =>
    cases rest with
    | nil =>
      show splitLines (a ++ '\n' :: []) = [a]
      rw [splitLines,
        splitLinesAux_no_newline [] a (hnl a (List.mem_cons_self _ _)) []]
      simp [splitLinesAux_nil]
    | cons b rest' =>
      show splitLines ((a ++ '\n' :: joinNL (b :: rest')) ++ ['\n'])
        = a :: b :: rest'
      rw [List.append_assoc, List.cons_append, splitLines,
        splitLinesAux_no_newline (joinNL (b :: rest') ++ ['\n']) a
          (hnl a (List.mem_cons_self _ _)) []]
      have hrest := ih (by simp)
        (fun x hx => hnl x (List.mem_cons_of_mem _ hx))
      rw [splitLines] at hrest
      rw [hrest]
      simp

theorem mustHave_lineName :
    ∀ nv ∈ MUST_HAVE, lineName nv.2.toList = nv.1.toList := by decide

theorem mustHave_no_newline :
    ∀ nv ∈ MUST_HAVE, ∀ c ∈ nv.2.toList, c ≠ '\n' := by decide

theorem mustHave_found_or_added (content : List Char) :
    ∀ nv ∈ MUST_HAVE,
      (∃ ln ∈ splitLines content, lineName ln = nv.1.toList) ∨
      nv.2.toList ∈ reqAdditions content := by
  intro nv hnv
  by_cases hc : (existingNames content).contains nv.1.toList
  · left
    have hmem : nv.1.toList ∈ existingNames content := List.elem_iff.mp hc
    obtain ⟨ln, hln, hf⟩ := List.mem_filterMap.mp hmem
    by_cases hrl : isReqLine ln
    · rw [if_pos hrl] at hf
      exact ⟨ln, hln, Option.some_injective _ hf⟩
    · rw [if_neg hrl] at hf
      exact absurd hf (by simp)
  · right
    unfold reqAdditions
    exact List.mem_filterMap.mpr ⟨nv, hnv, by rw [if_neg hc]⟩

theorem reqAdditions_no_newline (content : List Char) :
    ∀ a ∈ reqAdditions content, ∀ c ∈ a, c ≠ '\n' := by
  intro a ha
  obtain ⟨nv, hnv, hf⟩ := List.mem_filterMap.mp ha
  by_cases hc : (existingNames content).contains nv.1.toList
  · rw [if_pos hc] at hf
    exact absurd hf (by simp)
  · rw [if_neg hc] at hf
    have : a = nv.2.toList := (Option.some_injective _ hf).symm
    subst this
    exact mustHave_no_newline nv hnv

/-! ## Claim C4 -/

/-- C4: reconciling an existing dependency file is a pure union-merge:
every line of the pre-existing content survives byte-identically at its
original position (the old line list is a prefix of the new one — the
operation only appends), and afterwards every must-have canonical name is
matched by some line of the file (under the source's own name-matching
rule `lineName`). -/
theorem write_requirements_union_merge (content : List Char) :
    (∃ rest, splitLines (write_requirements (some content))
      = splitLines content ++ rest) ∧
    ∀ name ∈ mustHaveNames,
      ∃ ln ∈ splitLines (write_requirements (some content)),
        lineName ln = name.toList := by
  cases hE : reqAdditions content with
  | nil =>
    have hres : write_requirements (some content) = content := by
      simp [write_requirements, hE]
    constructor
    · exact ⟨[], by rw [hres, List.append_nil]⟩
    · intro name hname
      obtain ⟨nv, hnv, hfst⟩ := List.mem_map.mp hname
      rcases mustHave_found_or_added content nv hnv with ⟨ln, hln, hl⟩ | hadd
      · exact ⟨ln, by rw [hres]; exact hln, by rw [hl, hfst]⟩
      · rw [hE] at hadd
        exact absurd hadd (by simp)
  | cons a as =>
    have hres : write_requirements (some content)
        = content ++ '\n' :: (joinNL (reqAdditions content) ++ ['\n']) := by
      simp [write_requirements, hE]
    have hsplit : splitLines (write_requirements (some content))
        = splitLines (content ++ ['\n'])
          ++ splitLines (joinNL (reqAdditions content) ++ ['\n']) := by
      rw [hres]
      exact splitLines_append_newline content _
    obtain ⟨u, hu⟩ := splitLines_newline_suffix content
    have hT : splitLines (joinNL (reqAdditions content) ++ ['\n'])
        = reqAdditions content :=
      splitLines_joinNL (reqAdditions content) (by rw [hE]; simp)
        (reqAdditions_no_newline content)
    constructor
    · exact ⟨u ++ reqAdditions content,
        by rw [hsplit, hu, hT, List.append_assoc]⟩
    · intro name hname
      obtain ⟨nv, hnv, hfst⟩ := List.mem_map.mp hname
      rcases mustHave_found_or_added content nv hnv with ⟨ln, hln, hl⟩ | hadd
      · refine ⟨ln, ?_, by rw [hl, hfst]⟩
        rw [hsplit, hu]
        exact List.mem_append_left _ (List.mem_append_left _ hln)
      · refine ⟨nv.2.toList, ?_, by rw [mustHave_lineName nv hnv, hfst]⟩
        rw [hsplit, hT]
        exact List.mem_append_right _ hadd

/-- C4 witness: the union-merge theorem applied to the concrete
pre-existing file `Flask==2.0` and the must-have name `itsdangerous`. -/
theorem write_requirements_union_merge_witness :
    ∃ ln ∈ splitLines (write_requirements (some "Flask==2.0".toList)),
      lineName ln = "itsdangerous".toList :=
  (write_requirements_union_merge "Flask==2.0".toList).2 "itsdangerous"
    (by decide)

end DeployFlaskReact
